import Mathlib

/-!
Verification of the AwardBench evaluation framework against its
natural-language specification.

The only executable code in the repository is the static dashboard
(`src/dashboard.js`), embedded below as concrete Lean data.  The
evaluation orchestration engine described by the spec (aggregator,
retry policy, production sampler, rule-based evaluators) is not present
under `src/`; those components are modelled from the spec's words, each
such definition carrying a doc comment starting `Modelled from the
spec:`.
-/

namespace AwardBench

/-! ### Dashboard data model (from `src/dashboard.js`) -/

/-- Per-metric descriptive metadata, one value of `benchmarkData.metrics`
in `src/dashboard.js`: display name, description, best model and its
best score. -/
structure MetricInfo where
  name : String
  description : String
  best_model : String
  best_score : ℚ
  deriving DecidableEq, Repr

/-- One entry of `benchmarkData.leaderboard` in `src/dashboard.js`. -/
structure DashEntry where
  rank : ℕ
  model : String
  overall_score : ℚ
  tier : String
  tier_badge : String
  scores : List (String × ℚ)
  strengths : List String
  deriving DecidableEq, Repr

/-- The whole `benchmarkData` object of `src/dashboard.js`: a timestamp,
the ordered leaderboard and the per-metric metadata keyed by metric. -/
structure BenchmarkData where
  timestamp : String
  leaderboard : List DashEntry
  metrics : List (String × MetricInfo)
  deriving DecidableEq, Repr

/-- Score of an entry on a metric key: first matching key in the
`scores` association list, `0` when absent. -/
def scoreFor (sc : List (String × ℚ)) (k : String) : ℚ :=
  match sc with
  | [] => 0
  | p :: rest => if p.1 = k then p.2 else scoreFor rest k

/-- Rank-1 leaderboard entry of `src/dashboard.js`. -/
def entryAwarded : DashEntry :=
  { rank := 1
    model := "Awarded AI Platform"
    overall_score := 0.947
    tier := "Elite Performance"
    tier_badge := "99th Percentile"
    scores :=
      [ ("compliance_accuracy", 0.98), ("proposal_quality", 0.92),
        ("workflow_effectiveness", 0.94), ("retrieval_accuracy", 0.95),
        ("efficiency", 0.96), ("compliance_matrix", 0.97),
        ("raci_matrix", 0.95) ]
    strengths :=
      [ "Exceptional compliance accuracy", "Superior domain knowledge",
        "Advanced compliance matrix generation",
        "Automated RACI matrix creation" ] }

/-- Rank-2 leaderboard entry of `src/dashboard.js`. -/
def entryClaude : DashEntry :=
  { rank := 2
    model := "Claude 3.7 Sonnet"
    overall_score := 0.883
    tier := "Advanced Capability"
    tier_badge := "90th Percentile"
    scores :=
      [ ("compliance_accuracy", 0.85), ("proposal_quality", 0.91),
        ("workflow_effectiveness", 0.88), ("retrieval_accuracy", 0.89),
        ("efficiency", 0.9), ("compliance_matrix", 0.87),
        ("raci_matrix", 0.84) ]
    strengths := [ "Strong proposal generation", "Good efficiency" ] }

/-- Rank-3 leaderboard entry of `src/dashboard.js`. -/
def entryGPT4o : DashEntry :=
  { rank := 3
    model := "GPT-4o"
    overall_score := 0.872
    tier := "Advanced Capability"
    tier_badge := "85th Percentile"
    scores :=
      [ ("compliance_accuracy", 0.83), ("proposal_quality", 0.89),
        ("workflow_effectiveness", 0.87), ("retrieval_accuracy", 0.88),
        ("efficiency", 0.89), ("compliance_matrix", 0.85),
        ("raci_matrix", 0.82) ]
    strengths := [ "Consistent performance", "Fast response times" ] }

/-- Rank-4 leaderboard entry of `src/dashboard.js`. -/
def entryChatGPT : DashEntry :=
  { rank := 4
    model := "Generic ChatGPT"
    overall_score := 0.724
    tier := "Professional Standard"
    tier_badge := "70th Percentile"
    scores :=
      [ ("compliance_accuracy", 0.65), ("proposal_quality", 0.78),
        ("workflow_effectiveness", 0.72), ("retrieval_accuracy", 0.75),
        ("efficiency", 0.73), ("compliance_matrix", 0.68),
        ("raci_matrix", 0.62) ]
    strengths := [ "General knowledge", "User-friendly" ] }

/-- Metric metadata for `compliance_accuracy` in `src/dashboard.js`. -/
def infoCompliance : MetricInfo :=
  { name := "Compliance Accuracy"
    description :=
      "FAR/DFARS interpretation and compliance requirement identification"
    best_model := "Awarded AI Platform"
    best_score := 0.98 }

/-- Metric metadata for `proposal_quality` in `src/dashboard.js`. -/
def infoProposal : MetricInfo :=
  { name := "Proposal Generation Quality"
    description := "Win theme alignment and technical accuracy in proposals"
    best_model := "Awarded AI Platform"
    best_score := 0.92 }

/-- Metric metadata for `workflow_effectiveness` in `src/dashboard.js`. -/
def infoWorkflow : MetricInfo :=
  { name := "Workflow Automation"
    description := "End-to-end process automation and time-to-value"
    best_model := "Awarded AI Platform"
    best_score := 0.94 }

/-- Metric metadata for `retrieval_accuracy` in `src/dashboard.js`. -/
def infoRetrieval : MetricInfo :=
  { name := "Retrieval & Context"
    description := "Document retrieval precision and context utilization"
    best_model := "Awarded AI Platform"
    best_score := 0.95 }

/-- Metric metadata for `efficiency` in `src/dashboard.js`. -/
def infoEfficiency : MetricInfo :=
  { name := "Overall Efficiency"
    description := "Speed, cost optimization, and resource utilization"
    best_model := "Awarded AI Platform"
    best_score := 0.96 }

/-- Metric metadata for `compliance_matrix` in `src/dashboard.js`. -/
def infoComplianceMatrix : MetricInfo :=
  { name := "Compliance Matrix Generation"
    description :=
      "Section L/M parsing, requirement traceability, and automated cross-referencing"
    best_model := "Awarded AI Platform"
    best_score := 0.97 }

/-- Metric metadata for `raci_matrix` in `src/dashboard.js`. -/
def infoRaci : MetricInfo :=
  { name := "RACI Matrix Creation"
    description :=
      "Responsibility assignment, role identification, and task accountability mapping"
    best_model := "Awarded AI Platform"
    best_score := 0.95 }

/-- `benchmarkData` from `src/dashboard.js` lines 2-126.  The
`timestamp` field is `new Date().toISOString()` at load time, so it is
a parameter here; everything else is the literal static data. -/
def benchmarkData (ts : String) : BenchmarkData :=
  { timestamp := ts
    leaderboard := [entryAwarded, entryClaude, entryGPT4o, entryChatGPT]
    metrics :=
      [ ("compliance_accuracy", infoCompliance),
        ("proposal_quality", infoProposal),
        ("workflow_effectiveness", infoWorkflow),
        ("retrieval_accuracy", infoRetrieval),
        ("efficiency", infoEfficiency),
        ("compliance_matrix", infoComplianceMatrix),
        ("raci_matrix", infoRaci) ] }

/-- The radar chart's radial axis maximum (`scales.r.max` in
`initializeCharts`, `src/dashboard.js` line 367). -/
def radarAxisMax : ℚ := 1

/-- The bar chart's y-axis maximum (`scales.y.max` in
`initializeCharts`, `src/dashboard.js` line 416). -/
def barAxisMax : ℚ := 1

/-! ### Dashboard rendering state (from `updateLeaderboard`,
`src/dashboard.js` lines 270-285) -/

/-- One rendered `<tr>` of the leaderboard table: the cell contents the
row template of `updateLeaderboard` interpolates (rank, model name,
overall score, tier, tier badge, strengths joined with a comma). -/
structure RenderedRow where
  rankCell : ℕ
  nameCell : String
  scoreCell : ℚ
  tierCell : String
  tierBadgeCell : String
  strengthsCell : String
  deriving DecidableEq, Repr

/-- The row built for one leaderboard entry by the template literal in
`updateLeaderboard`. -/
def renderRow (e : DashEntry) : RenderedRow :=
  { rankCell := e.rank
    nameCell := e.model
    scoreCell := e.overall_score
    tierCell := e.tier
    tierBadgeCell := e.tier_badge
    strengthsCell := String.intercalate ", " e.strengths }

/-- Dashboard page state observable by `updateLeaderboard`: the
`benchmarkData` object and the `<tbody>` row list. -/
structure DashboardState where
  data : BenchmarkData
  tableRows : List RenderedRow
  deriving DecidableEq, Repr

/-- `updateLeaderboard` from `src/dashboard.js`: sets
`tbody.innerHTML = ''` (clearing all rows), then for each leaderboard
entry in array order appends one rendered row. -/
def updateLeaderboard (st : DashboardState) : DashboardState :=
  { st with
    tableRows := st.data.leaderboard.foldl (fun rows e => rows ++ [renderRow e]) [] }

/-! ### Aggregator: per-metric means (modelled from the spec) -/

/-- Modelled from the spec: the per-metric aggregation of one run is
missing from `src/`; this follows section 4.4.  The outcome of one
(example, evaluator, model) application for a metric: `some score` when
the evaluator computed the metric, `none` when the evaluator failed for
that example. -/
def MetricOutcome : Type := Option ℚ

/-- Modelled from the spec: single pass over a metric's per-example
outcomes accumulating (sum of computed scores, number scored, number
failed). -/
def metricFold : List (Option ℚ) → ℚ × ℕ × ℕ
  | [] => (0, 0, 0)
  | some q :: rest =>
    (q + (metricFold rest).1, (metricFold rest).2.1 + 1, (metricFold rest).2.2)
  | none :: rest =>
    ((metricFold rest).1, (metricFold rest).2.1, (metricFold rest).2.2 + 1)

/-- Modelled from the spec: number of examples where the metric was
computed (the report's `scored` count). -/
def scoredCount (rs : List (Option ℚ)) : ℕ := (metricFold rs).2.1

/-- Modelled from the spec: number of examples whose evaluator failed
for the metric (the report's `failed` count). -/
def failedCount (rs : List (Option ℚ)) : ℕ := (metricFold rs).2.2

/-- Modelled from the spec: per-metric score = arithmetic mean of the
computed scores; examples with evaluator failure are excluded from both
numerator and denominator.  `none` when no example was scored. -/
def metricMean (rs : List (Option ℚ)) : Option ℚ :=
  let acc := metricFold rs
  if acc.2.1 = 0 then none else some (acc.1 / acc.2.1)

/-! ### Aggregator: weighted overall score (modelled from the spec) -/

/-- Modelled from the spec: aggregation failure raised when the
externally supplied metric weights do not sum to 1. -/
inductive AggError where
  | InvalidWeightConfig
  deriving DecidableEq, Repr

/-- Modelled from the spec: floating tolerance `1e-6` used when
validating that the weights sum to 1. -/
def weightTolerance : ℚ := 1 / 1000000

/-- Sum of an externally supplied metric weight mapping. -/
def sumWeights (ws : List (String × ℚ)) : ℚ := (ws.map Prod.snd).sum

/-- Modelled from the spec: overall score = weighted sum of per-metric
scores under the supplied weight mapping. -/
def overallScore (ws scores : List (String × ℚ)) : ℚ :=
  (ws.map (fun p => p.2 * scoreFor scores p.1)).sum

/-- Modelled from the spec: aggregation validates the weight mapping at
its start — weights must sum to 1 within `weightTolerance`, otherwise it
fails with `InvalidWeightConfig` — and then produces the weighted
overall score. -/
def aggregateOverall (ws scores : List (String × ℚ)) : Except AggError ℚ :=
  if |sumWeights ws - 1| ≤ weightTolerance then Except.ok (overallScore ws scores)
  else Except.error AggError.InvalidWeightConfig

/-! ### Aggregator: leaderboard ranking (modelled from the spec) -/

/-- Modelled from the spec: one ranked leaderboard entry before rank
assignment — model identifier, overall score and the per-metric score
mapping. -/
structure LeaderboardEntry where
  modelId : String
  overallScore : ℚ
  scores : List (String × ℚ)
  deriving DecidableEq, Repr

/-- Modelled from the spec: tie-break order among entries with equal
overall score — first by the configured metric priority ordering
(higher priority-metric score first), then lexicographically by model
identifier. -/
def prioLE : List String → LeaderboardEntry → LeaderboardEntry → Prop
  | [], a, b => a.modelId ≤ b.modelId
  | k :: ks, a, b =>
    scoreFor b.scores k < scoreFor a.scores k ∨
      (scoreFor a.scores k = scoreFor b.scores k ∧ prioLE ks a b)

/-- Modelled from the spec: the ranking order — descending by overall
score, ties broken by `prioLE`. -/
def entryLE (ps : List String) (a b : LeaderboardEntry) : Prop :=
  b.overallScore < a.overallScore ∨
    (a.overallScore = b.overallScore ∧ prioLE ps a b)

instance prioLE.instDecidable :
    ∀ (ps : List String) (a b : LeaderboardEntry), Decidable (prioLE ps a b)
  | [], a, b => inferInstanceAs (Decidable (a.modelId ≤ b.modelId))
  | _ :: ks, a, b =>
    letI := prioLE.instDecidable ks a b
    inferInstanceAs (Decidable (_ ∨ _ ∧ prioLE ks a b))

instance entryLE.instDecidable (ps : List String) (a b : LeaderboardEntry) :
    Decidable (entryLE ps a b) :=
  inferInstanceAs (Decidable (_ ∨ _ ∧ prioLE ps a b))

/-- Modelled from the spec: entries sorted descending by overall score
with the configured tie-break. -/
def rankEntries (ps : List String) (l : List LeaderboardEntry) : List LeaderboardEntry :=
  List.insertionSort (entryLE ps) l

/-- Modelled from the spec: the ranked leaderboard — sorted entries
paired with their 1-based rank. -/
def leaderboardOf (ps : List String) (l : List LeaderboardEntry) :
    List (ℕ × LeaderboardEntry) :=
  (rankEntries ps l).enum.map (fun p => (p.1 + 1, p.2))

/-! ### Retry policy (modelled from the spec) -/

/-- Modelled from the spec: the failures a model adapter invocation can
raise. -/
inductive ProviderFailure where
  | providerTimeout
  | providerRateLimited
  | providerError
  deriving DecidableEq, Repr

/-- Modelled from the spec: outcome of one model adapter attempt. -/
inductive InvokeOutcome where
  | success (output : String)
  | failure (e : ProviderFailure)
  deriving DecidableEq, Repr

/-- Modelled from the spec: `ProviderTimeout` and `ProviderRateLimited`
are retried; `ProviderError` is not. -/
def retriable : ProviderFailure → Bool
  | ProviderFailure.providerTimeout => true
  | ProviderFailure.providerRateLimited => true
  | ProviderFailure.providerError => false

/-- Modelled from the spec's configuration surface:
`retryPolicy: {maxAttempts, backoffMs}`. -/
structure RetryPolicy where
  maxAttempts : ℕ
  backoffMs : ℕ
  deriving DecidableEq, Repr

/-- Modelled from the spec: exponential backoff delay waited before
retry number `k`. -/
def backoffDelay (p : RetryPolicy) (k : ℕ) : ℕ := p.backoffMs * 2 ^ k

/-- Modelled from the spec: retry loop.  `f i` is the outcome the
provider returns on attempt `i` (0-based); `used` counts attempts made
so far; the ℕ argument is the number of retries still allowed after the
current attempt.  Returns the final outcome and the total number of
attempts made. -/
def retryRun (f : ℕ → InvokeOutcome) (used : ℕ) : ℕ → InvokeOutcome × ℕ
  | 0 => (f used, used + 1)
  | n + 1 =>
    match f used with
    | InvokeOutcome.success o => (InvokeOutcome.success o, used + 1)
    | InvokeOutcome.failure e =>
      if retriable e then retryRun f (used + 1) n
      else (InvokeOutcome.failure e, used + 1)

/-- Modelled from the spec: a model adapter invocation under the retry
policy — at most `maxAttempts` attempts in total. -/
def invokeWithRetry (p : RetryPolicy) (f : ℕ → InvokeOutcome) : InvokeOutcome × ℕ :=
  retryRun f 0 (p.maxAttempts - 1)

/-- Modelled from the spec: an example's model invocation is marked
failed exactly when the final outcome is a failure. -/
def markedFailed (r : InvokeOutcome × ℕ) : Bool :=
  match r.1 with
  | InvokeOutcome.failure _ => true
  | InvokeOutcome.success _ => false

/-! ### Production sampler (modelled from the spec) -/

/-- Modelled from the spec: one raw production interaction record — an
id, a category used for stratified selection, and the input/metadata
text split into spans (the units the PII detector classifies). -/
structure RawInteraction where
  id : String
  category : String
  spans : List String
  metaSpans : List String
  deriving DecidableEq, Repr

/-- Modelled from the spec's sampling `policy`: configured categories
with a per-category cap, a quality filter (minimum length, exclusion
list) and the configured PII detector flagging spans to redact
(emails, phone numbers, SSNs, flagged named-entity spans). -/
structure SamplePolicy where
  categories : List String
  perCategoryCap : ℕ
  minLength : ℕ
  exclusions : List String
  detectPII : String → Bool

/-- Modelled from the spec: a benchmark Example — id, structured input,
optional expected output, metadata. -/
structure SampledExample where
  id : String
  input : List String
  expectedOutput : Option (List String)
  metadata : List String
  deriving DecidableEq, Repr

/-- The redaction marker substituted for every flagged span. -/
def redactionMark : String := "[REDACTED]"

/-- Modelled from the spec: stage (a), stratified selection — for each
configured category, keep at most `perCategoryCap` interactions of that
category. -/
def stratifiedSelect (pol : SamplePolicy) (raws : List RawInteraction) :
    List RawInteraction :=
  (pol.categories.map
    (fun c => (raws.filter (fun r => r.category = c)).take pol.perCategoryCap)).flatten

/-- Redact one span when the configured detector flags it. -/
def scrubSpan (detect : String → Bool) (s : String) : String :=
  if detect s then redactionMark else s

/-- Modelled from the spec: stage (b), PII scrubbing applied to every
input and metadata span before any persistence. -/
def scrubInteraction (detect : String → Bool) (r : RawInteraction) : RawInteraction :=
  { r with
    spans := r.spans.map (scrubSpan detect)
    metaSpans := r.metaSpans.map (scrubSpan detect) }

/-- Total text length of an interaction's input spans. -/
def interactionLength (r : RawInteraction) : ℕ := (r.spans.map String.length).sum

/-- Modelled from the spec: stage (c), quality filter — drop
interactions below the minimum length or containing a span on the
exclusion list. -/
def qualityOK (pol : SamplePolicy) (r : RawInteraction) : Bool :=
  decide (pol.minLength ≤ interactionLength r) &&
    r.spans.all (fun s => !(pol.exclusions.contains s))

/-- A scrubbed, quality-filtered interaction as a new Example entity. -/
def exampleOf (r : RawInteraction) : SampledExample :=
  { id := r.id, input := r.spans, expectedOutput := none, metadata := r.metaSpans }

/-- Modelled from the spec: `sample(rawInteractions, policy)` —
stratified selection, then PII scrubbing, then the quality filter,
emitting new Example records. -/
def sample (pol : SamplePolicy) (raws : List RawInteraction) : List SampledExample :=
  (((stratifiedSelect pol raws).map (scrubInteraction pol.detectPII)).filter
    (qualityOK pol)).map exampleOf

/-- `containsLit lit s` holds when the literal `lit` occurs as a
contiguous substring of `s`. -/
def containsLit (lit s : String) : Prop := lit.data <:+: s.data

instance containsLit.instDecidable (lit s : String) : Decidable (containsLit lit s) :=
  List.decidableInfix lit.data s.data

/-! ### Rule-based evaluator (modelled from the spec) -/

/-- Modelled from the spec: score plus free-text rationale returned by
an evaluator's `score` capability. -/
structure ScoreComment where
  score : ℚ
  comment : String
  deriving DecidableEq, Repr

/-- Modelled from the spec: parse a model's raw output into the
structured clause list a rule-based compliance evaluator checks; `none`
on malformed output (empty output or an empty clause token). -/
def parseClauses (out : String) : Option (List String) :=
  if out = "" then none
  else
    let toks := out.splitOn ";"
    if toks.any (fun t => t = "") then none else some toks

/-- Modelled from the spec: the deterministic presence/absence score a
rule-based compliance evaluator assigns — the fraction of the
reference's required clauses present in the parsed output (1 when no
clause is required). -/
def clauseCoverage (required cs : List String) : ℚ :=
  if required.isEmpty then 1
  else ((required.filter (fun c => cs.contains c)).length : ℚ) / required.length

/-- Modelled from the spec: a rule-based evaluator — a deterministic
presence/absence check of the reference's required clauses against the
parsed output.  On malformed output it returns score 0 with a
diagnostic comment instead of raising. -/
def ruleBasedScore (required : List String) (out : String) : ScoreComment :=
  match parseClauses out with
  | none => { score := 0, comment := "malformed model output: expected clause list" }
  | some cs =>
    { score := clauseCoverage required cs
      comment := "compliance clause presence check" }

/-! ### Concrete instances used by the spec's scenarios -/

/-- The tie-break scenario's model A: overall score 0.85,
`compliance_accuracy` 0.9. -/
def modelA85 : LeaderboardEntry :=
  { modelId := "model-a", overallScore := 0.85,
    scores := [("compliance_accuracy", 0.9)] }

/-- The tie-break scenario's model B: overall score 0.85,
`compliance_accuracy` 0.8. -/
def modelB85 : LeaderboardEntry :=
  { modelId := "model-b", overallScore := 0.85,
    scores := [("compliance_accuracy", 0.8)] }

/-- The PII scenario's detector: flags any span containing the
synthetic email literal. -/
def demoDetect (s : String) : Bool := decide (containsLit "bob@x.com" s)

/-- The PII scenario's sampling policy. -/
def demoPolicy : SamplePolicy :=
  { categories := ["qa"], perCategoryCap := 10, minLength := 1,
    exclusions := [], detectPII := demoDetect }

/-- The PII scenario's raw interaction: a synthetic email literal in
both input and metadata. -/
def demoRaw : RawInteraction :=
  { id := "i1", category := "qa",
    spans := ["Contact bob@x.com today"],
    metaSpans := ["from bob@x.com"] }

/-- Best score achieved on a metric across the dashboard leaderboard. -/
def bestScoreOn (ts k : String) : ℚ :=
  ((benchmarkData ts).leaderboard.map (fun e => scoreFor e.scores k)).foldr max 0

/-! ### Helper lemmas -/

theorem metricFold_spec (rs : List (Option ℚ)) :
    (metricFold rs).1 = rs.reduceOption.sum ∧
    (metricFold rs).2.1 = rs.reduceOption.length ∧
    (metricFold rs).2.2 + rs.reduceOption.length = rs.length := by
  induction rs with
  | nil => simp [metricFold, List.reduceOption]
  | cons o rest ih =>
    obtain ⟨h1, h2, h3⟩ := ih
    cases o with
    | none =>
      exact ⟨h1, h2, by
        simp only [metricFold, List.reduceOption_cons_of_none, List.length_cons]
        omega⟩
    | some q =>
      refine ⟨?_, ?_, ?_⟩
      · simp only [metricFold, List.reduceOption_cons_of_some, List.sum_cons, h1]
      · simp only [metricFold, List.reduceOption_cons_of_some, List.length_cons, h2]
      · simp only [metricFold, List.reduceOption_cons_of_some, List.length_cons]
        omega

/-! ### Claims -/

/-- C1: for every metric, the aggregated per-metric score is the
arithmetic mean of the evaluator scores over exactly the examples where
the metric was computed; evaluator failures are excluded from both
numerator and denominator, and the report's `scored`/`failed` counts
reflect that.  On the 3-example scenario (1.0, failure, 0.0) the mean
is 0.5 with scored = 2 and failed = 1. -/
theorem metric_mean_excludes_failures (rs : List (Option ℚ)) :
    metricMean rs =
      (if rs.reduceOption.length = 0 then none
       else some (rs.reduceOption.sum / rs.reduceOption.length)) ∧
    scoredCount rs = rs.reduceOption.length ∧
    failedCount rs = rs.length - scoredCount rs ∧
    metricMean [some 1, none, some 0] = some (1 / 2) ∧
    scoredCount [some 1, none, some 0] = 2 ∧
    failedCount [some 1, none, some 0] = 1 := by
  obtain ⟨h1, h2, h3⟩ := metricFold_spec rs
  refine ⟨?_, h2, ?_,
    by norm_num [metricMean, metricFold],
    by norm_num [scoredCount, metricFold],
    by norm_num [failedCount, metricFold]⟩
  · show (if (metricFold rs).2.1 = 0 then none
        else some ((metricFold rs).1 / ((metricFold rs).2.1 : ℚ))) = _
    rw [h1, h2]
  · show (metricFold rs).2.2 = rs.length - (metricFold rs).2.1
    omega

/-- C5: the benchmark data document (the run's terminal artifact
consumed by the dashboard) carries a timestamp, an ordered leaderboard
(1-based ranks in list order, overall scores descending) and, for each
of the seven metric keys, descriptive metadata with a nonempty name,
description and best model together with a best score. -/
theorem report_terminal_artifact_structure (ts : String) :
    (benchmarkData ts).timestamp = ts ∧
    (benchmarkData ts).leaderboard.map DashEntry.rank =
      (List.range (benchmarkData ts).leaderboard.length).map (fun i => i + 1) ∧
    (benchmarkData ts).leaderboard.Chain' (fun a b => b.overall_score ≤ a.overall_score) ∧
    (benchmarkData ts).metrics.map Prod.fst =
      [ "compliance_accuracy", "proposal_quality", "workflow_effectiveness",
        "retrieval_accuracy", "efficiency", "compliance_matrix", "raci_matrix" ] ∧
    ∀ p ∈ (benchmarkData ts).metrics,
      p.2.name ≠ "" ∧ p.2.description ≠ "" ∧ p.2.best_model ≠ "" ∧
      0 ≤ p.2.best_score ∧ p.2.best_score ≤ 1 := by
  refine ⟨rfl, ?_, ?_, by simp [benchmarkData], ?_⟩
  · simp [benchmarkData, entryAwarded, entryClaude, entryGPT4o, entryChatGPT,
      List.range_succ]
  · norm_num [benchmarkData, entryAwarded, entryClaude, entryGPT4o, entryChatGPT,
      List.chain'_cons]
  · norm_num [benchmarkData, infoCompliance, infoProposal, infoWorkflow, infoRetrieval,
      infoEfficiency, infoComplianceMatrix, infoRaci, List.forall_mem_cons]
    decide

/-- Witness for C5 at a concrete timestamp and the first metric key. -/
theorem report_terminal_artifact_structure_witness :
    (benchmarkData "2025-06-20T00:00:00Z").timestamp = "2025-06-20T00:00:00Z" ∧
    infoCompliance.name ≠ "" :=
  ⟨(report_terminal_artifact_structure "2025-06-20T00:00:00Z").1,
    ((report_terminal_artifact_structure "2025-06-20T00:00:00Z").2.2.2.2
      ("compliance_accuracy", infoCompliance) (by simp [benchmarkData])).1⟩

/-- C8: the dashboard's per-metric metadata is consistent with its
leaderboard — each metric's `best_score` is the maximum of that
metric's score over all leaderboard entries, and `best_model` names an
entry attaining it. -/
theorem metrics_metadata_consistent (ts : String) :
    ∀ p ∈ (benchmarkData ts).metrics,
      p.2.best_score = bestScoreOn ts p.1 ∧
      ∃ e ∈ (benchmarkData ts).leaderboard,
        e.model = p.2.best_model ∧ scoreFor e.scores p.1 = p.2.best_score := by
  intro p hp
  simp only [benchmarkData, List.mem_cons, List.not_mem_nil, or_false] at hp
  rcases hp with h | h | h | h | h | h | h <;> subst h <;>
    exact ⟨by norm_num +decide [bestScoreOn, benchmarkData, scoreFor, entryAwarded,
        entryClaude, entryGPT4o, entryChatGPT, infoCompliance, infoProposal, infoWorkflow,
        infoRetrieval, infoEfficiency, infoComplianceMatrix, infoRaci, max_def],
      entryAwarded, by simp [benchmarkData],
      by norm_num [entryAwarded, infoCompliance, infoProposal, infoWorkflow,
        infoRetrieval, infoEfficiency, infoComplianceMatrix, infoRaci],
      by norm_num +decide [scoreFor, entryAwarded, infoCompliance, infoProposal,
        infoWorkflow, infoRetrieval, infoEfficiency, infoComplianceMatrix, infoRaci]⟩

/-- Witness for C8 at the `compliance_accuracy` metric. -/
theorem metrics_metadata_consistent_witness :
    infoCompliance.best_score = bestScoreOn "t" "compliance_accuracy" ∧
    ∃ e ∈ (benchmarkData "t").leaderboard,
      e.model = infoCompliance.best_model ∧
      scoreFor e.scores "compliance_accuracy" = infoCompliance.best_score :=
  metrics_metadata_consistent "t" ("compliance_accuracy", infoCompliance)
    (by simp [benchmarkData])

/-- C9: every score in the benchmark data lies in the closed interval
\[0,1]: each leaderboard entry's overall score and every per-metric
score is between 0 and the fixed chart axis maximum 1 used by the radar
and bar charts. -/
theorem benchmark_scores_within_unit_interval (ts : String) :
    radarAxisMax = 1 ∧ barAxisMax = 1 ∧
    ∀ e ∈ (benchmarkData ts).leaderboard,
      (0 ≤ e.overall_score ∧ e.overall_score ≤ barAxisMax) ∧
      ∀ p ∈ e.scores, 0 ≤ p.2 ∧ p.2 ≤ radarAxisMax := by
  refine ⟨rfl, rfl, ?_⟩
  norm_num [benchmarkData, entryAwarded, entryClaude, entryGPT4o, entryChatGPT,
    radarAxisMax, barAxisMax, List.forall_mem_cons]
  refine ⟨?_, ?_, ?_, ?_⟩ <;>
    rintro a b (⟨-, rfl⟩ | ⟨-, rfl⟩ | ⟨-, rfl⟩ | ⟨-, rfl⟩ | ⟨-, rfl⟩ | ⟨-, rfl⟩ | ⟨-, rfl⟩) <;>
    norm_num

/-- Witness for C9 at the rank-1 entry. -/
theorem benchmark_scores_within_unit_interval_witness :
    0 ≤ entryAwarded.overall_score ∧ entryAwarded.overall_score ≤ barAxisMax :=
  ((benchmark_scores_within_unit_interval "t").2.2 entryAwarded (by simp [benchmarkData])).1

theorem renderRows_foldl (l : List DashEntry) (rows : List RenderedRow) :
    l.foldl (fun rs e => rs ++ [renderRow e]) rows = rows ++ l.map renderRow := by
  induction l generalizing rows with
  | nil => simp
  | cons e rest ih => simp [ih]

/-- C10: `updateLeaderboard` clears the table body and appends exactly
one row per leaderboard entry in array order; it is idempotent on the
rendered table (any number of calls equals one call) and leaves
`benchmarkData` unchanged. -/
theorem updateLeaderboard_idempotent (st : DashboardState) :
    (updateLeaderboard st).data = st.data ∧
    (updateLeaderboard st).tableRows = st.data.leaderboard.map renderRow ∧
    updateLeaderboard (updateLeaderboard st) = updateLeaderboard st ∧
    ∀ n : ℕ, updateLeaderboard^[n + 1] st = updateLeaderboard st := by
  have hidem : updateLeaderboard (updateLeaderboard st) = updateLeaderboard st := rfl
  refine ⟨rfl, ?_, hidem, ?_⟩
  · simpa [updateLeaderboard] using renderRows_foldl st.data.leaderboard []
  · intro n
    induction n with
    | zero => simp
    | succ n ih => rw [Function.iterate_succ_apply', ih]; exact hidem

theorem retryRun_exhaust (f : ℕ → InvokeOutcome)
    (hf : ∀ i, ∃ e, f i = InvokeOutcome.failure e ∧ retriable e = true) :
    ∀ n used, markedFailed (retryRun f used n) = true ∧
      (retryRun f used n).2 = used + n + 1 := by
  intro n
  induction n with
  | zero =>
    intro used
    obtain ⟨e, he, -⟩ := hf used
    simp [retryRun, markedFailed, he]
  | succ n ih =>
    intro used
    obtain ⟨e, he, hr⟩ := hf used
    have h2 := ih (used + 1)
    simp only [retryRun, he, hr, if_true]
    exact ⟨h2.1, by omega⟩

/-- C4: an adapter failing with `ProviderRateLimited` or
`ProviderTimeout` on every attempt marks the example failed after
exactly `maxAttempts` attempts, never fewer or more; a `ProviderError`
failure is never retried and marks the invocation failed after one
attempt. -/
theorem retry_policy_attempt_counts (p : RetryPolicy) (f g : ℕ → InvokeOutcome)
    (hp : 1 ≤ p.maxAttempts)
    (hf : ∀ i, f i = InvokeOutcome.failure ProviderFailure.providerRateLimited ∨
      f i = InvokeOutcome.failure ProviderFailure.providerTimeout)
    (hg : g 0 = InvokeOutcome.failure ProviderFailure.providerError) :
    (markedFailed (invokeWithRetry p f) = true ∧ (invokeWithRetry p f).2 = p.maxAttempts) ∧
    (markedFailed (invokeWithRetry p g) = true ∧ (invokeWithRetry p g).2 = 1) := by
  constructor
  · have hf2 : ∀ i, ∃ e, f i = InvokeOutcome.failure e ∧ retriable e = true := by
      intro i
      rcases hf i with h | h
      · exact ⟨ProviderFailure.providerRateLimited, h, rfl⟩
      · exact ⟨ProviderFailure.providerTimeout, h, rfl⟩
    have h := retryRun_exhaust f hf2 (p.maxAttempts - 1) 0
    exact ⟨h.1, by rw [invokeWithRetry, h.2]; omega⟩
  · rcases hn : p.maxAttempts - 1 with _ | n <;>
      simp [invokeWithRetry, hn, retryRun, hg, retriable, markedFailed]

/-- Witness for C4: with `maxAttempts = 3` a permanently rate-limited
adapter fails after exactly 3 attempts. -/
theorem retry_policy_attempt_counts_witness :
    markedFailed (invokeWithRetry ⟨3, 100⟩
        (fun _ => InvokeOutcome.failure ProviderFailure.providerRateLimited)) = true ∧
    (invokeWithRetry ⟨3, 100⟩
        (fun _ => InvokeOutcome.failure ProviderFailure.providerRateLimited)).2 = 3 :=
  (retry_policy_attempt_counts ⟨3, 100⟩ _
      (fun _ => InvokeOutcome.failure ProviderFailure.providerError)
      (by decide) (fun _ => Or.inl rfl) rfl).1

theorem clauseCoverage_bounds (required cs : List String) :
    0 ≤ clauseCoverage required cs ∧ clauseCoverage required cs ≤ 1 := by
  unfold clauseCoverage
  split
  · norm_num
  · rename_i hne
    have hlen : 0 < (required.length : ℚ) := by
      have h0 : required ≠ [] := fun h => hne (by simp [h])
      have := List.length_pos.mpr h0
      exact_mod_cast this
    constructor
    · positivity
    · rw [div_le_one hlen]
      exact_mod_cast List.length_filter_le _ _

/-- C7: a rule-based evaluator is a total function — its score always
lies in \[0,1], on malformed output it returns score 0 with a nonempty
diagnostic comment instead of raising, and on well-formed output it
returns its deterministic presence-check score. -/
theorem rule_based_evaluator_total (required : List String) (out : String) :
    (0 ≤ (ruleBasedScore required out).score ∧ (ruleBasedScore required out).score ≤ 1) ∧
    (parseClauses out = none →
      (ruleBasedScore required out).score = 0 ∧ (ruleBasedScore required out).comment ≠ "") ∧
    (∀ cs, parseClauses out = some cs →
      ruleBasedScore required out =
        { score := clauseCoverage required cs
          comment := "compliance clause presence check" }) := by
  refine ⟨?_, ?_, ?_⟩
  · unfold ruleBasedScore
    rcases h : parseClauses out with _ | cs
    · norm_num
    · exact clauseCoverage_bounds required cs
  · intro h
    simp [ruleBasedScore, h]
  · intro cs h
    simp [ruleBasedScore, h]

/-- Witness for C7: the empty (malformed) output scores 0 with a
diagnostic comment. -/
theorem rule_based_evaluator_total_witness :
    (ruleBasedScore ["FAR-52.204-21"] "").score = 0 ∧
    (ruleBasedScore ["FAR-52.204-21"] "").comment ≠ "" :=
  (rule_based_evaluator_total ["FAR-52.204-21"] "").2.1 rfl

theorem scoreFor_bounds (sc : List (String × ℚ)) (k : String)
    (h : ∀ p ∈ sc, 0 ≤ p.2 ∧ p.2 ≤ 1) : 0 ≤ scoreFor sc k ∧ scoreFor sc k ≤ 1 := by
  induction sc with
  | nil => simp [scoreFor]
  | cons p rest ih =>
    simp only [scoreFor]
    split
    · exact h p (List.mem_cons_self p rest)
    · exact ih (fun q hq => h q (List.mem_cons_of_mem _ hq))

theorem overallScore_bounds (ws scores : List (String × ℚ))
    (hw : ∀ p ∈ ws, 0 ≤ p.2) (hs : ∀ p ∈ scores, 0 ≤ p.2 ∧ p.2 ≤ 1) :
    0 ≤ overallScore ws scores ∧ overallScore ws scores ≤ sumWeights ws := by
  induction ws with
  | nil => simp [overallScore, sumWeights]
  | cons p rest ih =>
    obtain ⟨ih1, ih2⟩ := ih (fun q hq => hw q (List.mem_cons_of_mem _ hq))
    obtain ⟨hs1, hs2⟩ := scoreFor_bounds scores p.1 hs
    have hp : 0 ≤ p.2 := hw p (List.mem_cons_self p rest)
    constructor
    · simp only [overallScore, List.map_cons, List.sum_cons]
      have hm := mul_nonneg hp hs1
      simp only [overallScore] at ih1
      linarith
    · simp only [overallScore, sumWeights, List.map_cons, List.sum_cons]
      have h1 : p.2 * scoreFor scores p.1 ≤ p.2 := by
        calc p.2 * scoreFor scores p.1 ≤ p.2 * 1 := mul_le_mul_of_nonneg_left hs2 hp
        _ = p.2 := mul_one _
      simp only [overallScore, sumWeights] at ih2
      linarith

/-- C2 (amended): aggregation validates the weight mapping at its
start — any nonnegative weight mapping whose sum is within the 1e-6
tolerance of 1 passes and, when every per-metric score lies in \[0,1],
yields an overall weighted score in \[0, 1 + 1e-6] (the tolerance
slack, not \[0,1] exactly); weights summing to 0.9 or 1.1 fail with
`InvalidWeightConfig`. -/
theorem aggregate_validates_weights (ws scores : List (String × ℚ))
    (hw : ∀ p ∈ ws, 0 ≤ p.2) (hs : ∀ p ∈ scores, 0 ≤ p.2 ∧ p.2 ≤ 1) :
    (|sumWeights ws - 1| ≤ weightTolerance →
      aggregateOverall ws scores = Except.ok (overallScore ws scores) ∧
      0 ≤ overallScore ws scores ∧ overallScore ws scores ≤ 1 + weightTolerance) ∧
    (sumWeights ws = 9 / 10 →
      aggregateOverall ws scores = Except.error AggError.InvalidWeightConfig) ∧
    (sumWeights ws = 11 / 10 →
      aggregateOverall ws scores = Except.error AggError.InvalidWeightConfig) := by
  obtain ⟨hb1, hb2⟩ := overallScore_bounds ws scores hw hs
  refine ⟨?_, ?_, ?_⟩
  · intro h
    have hub : sumWeights ws ≤ 1 + weightTolerance := by
      have habs := abs_le.mp h
      linarith [habs.2]
    exact ⟨by rw [aggregateOverall, if_pos h], hb1, le_trans hb2 hub⟩
  · intro h
    rw [aggregateOverall, if_neg]
    rw [h, weightTolerance]
    intro hc
    rw [abs_le] at hc
    norm_num at hc
  · intro h
    rw [aggregateOverall, if_neg]
    rw [h, weightTolerance]
    intro hc
    rw [abs_le] at hc
    norm_num at hc

/-- Witness for the amended C2: a single full-weight metric passes
validation and scores within \[0, 1 + 1e-6]. -/
theorem aggregate_validates_weights_witness :
    aggregateOverall [("compliance_accuracy", 1)] [("compliance_accuracy", 1)] =
      Except.ok (overallScore [("compliance_accuracy", 1)] [("compliance_accuracy", 1)]) ∧
    0 ≤ overallScore [("compliance_accuracy", 1)] [("compliance_accuracy", 1)] ∧
    overallScore [("compliance_accuracy", 1)] [("compliance_accuracy", 1)] ≤
      1 + weightTolerance :=
  (aggregate_validates_weights [("compliance_accuracy", 1)] [("compliance_accuracy", 1)]
      (by norm_num) (by norm_num)).1
    (by norm_num [sumWeights, weightTolerance])

/-- Counterexample to C2 as stated: the weight mapping with single
weight 1 + 1e-6 sums to 1 within the 1e-6 tolerance, so aggregation
succeeds, yet with the per-metric score 1 (inside \[0,1]) the overall
score is 1 + 1e-6, strictly above 1 — so the overall score is not
guaranteed to lie in \[0,1]. -/
theorem aggregate_tolerance_exceeds_unit :
    aggregateOverall [("compliance_accuracy", 1 + 1 / 1000000)] [("compliance_accuracy", 1)] =
      Except.ok (1 + 1 / 1000000) ∧
    (1 : ℚ) < 1 + 1 / 1000000 := by
  constructor
  · rw [aggregateOverall, if_pos]
    · norm_num +decide [overallScore, scoreFor]
    · norm_num [sumWeights, weightTolerance, abs_le]
  · norm_num

theorem prioLE_total (ps : List String) (a b : LeaderboardEntry) :
    prioLE ps a b ∨ prioLE ps b a := by
  induction ps with
  | nil => exact le_total a.modelId b.modelId
  | cons k ks ih =>
    rcases lt_trichotomy (scoreFor a.scores k) (scoreFor b.scores k) with h | h | h
    · exact Or.inr (Or.inl h)
    · rcases ih with h2 | h2
      · exact Or.inl (Or.inr ⟨h, h2⟩)
      · exact Or.inr (Or.inr ⟨h.symm, h2⟩)
    · exact Or.inl (Or.inl h)

theorem prioLE_trans (ps : List String) (a b c : LeaderboardEntry) :
    prioLE ps a b → prioLE ps b c → prioLE ps a c := by
  induction ps with
  | nil => exact le_trans
  | cons k ks ih =>
    rintro (hab | ⟨eab, hab⟩) (hbc | ⟨ebc, hbc⟩)
    · exact Or.inl (lt_trans hbc hab)
    · exact Or.inl (ebc ▸ hab)
    · exact Or.inl (by rw [eab]; exact hbc)
    · exact Or.inr ⟨eab.trans ebc, ih hab hbc⟩

theorem prioLE_antisymm (ps : List String) (a b : LeaderboardEntry) :
    prioLE ps a b → prioLE ps b a →
    a.modelId = b.modelId ∧ ∀ k ∈ ps, scoreFor a.scores k = scoreFor b.scores k := by
  induction ps with
  | nil =>
    intro h1 h2
    exact ⟨le_antisymm h1 h2, by simp⟩
  | cons k ks ih =>
    rintro (h1 | ⟨e1, h1⟩) (h2 | ⟨e2, h2⟩)
    · exact absurd h2 (lt_asymm h1)
    · rw [e2] at h1
      exact absurd h1 (lt_irrefl _)
    · rw [e1] at h2
      exact absurd h2 (lt_irrefl _)
    · obtain ⟨hid, hks⟩ := ih h1 h2
      refine ⟨hid, ?_⟩
      intro k2 hk2
      rcases List.mem_cons.mp hk2 with rfl | hk2
      · exact e1
      · exact hks k2 hk2

theorem entryLE_total (ps : List String) (a b : LeaderboardEntry) :
    entryLE ps a b ∨ entryLE ps b a := by
  rcases lt_trichotomy a.overallScore b.overallScore with h | h | h
  · exact Or.inr (Or.inl h)
  · rcases prioLE_total ps a b with h2 | h2
    · exact Or.inl (Or.inr ⟨h, h2⟩)
    · exact Or.inr (Or.inr ⟨h.symm, h2⟩)
  · exact Or.inl (Or.inl h)

theorem entryLE_trans (ps : List String) (a b c : LeaderboardEntry) :
    entryLE ps a b → entryLE ps b c → entryLE ps a c := by
  rintro (hab | ⟨eab, hab⟩) (hbc | ⟨ebc, hbc⟩)
  · exact Or.inl (lt_trans hbc hab)
  · exact Or.inl (ebc ▸ hab)
  · exact Or.inl (by rw [eab]; exact hbc)
  · exact Or.inr ⟨eab.trans ebc, prioLE_trans ps a b c hab hbc⟩

theorem entryLE_antisymm (ps : List String) (a b : LeaderboardEntry) :
    entryLE ps a b → entryLE ps b a →
    a.overallScore = b.overallScore ∧ a.modelId = b.modelId ∧
      ∀ k ∈ ps, scoreFor a.scores k = scoreFor b.scores k := by
  rintro (h1 | ⟨e1, h1⟩) (h2 | ⟨e2, h2⟩)
  · exact absurd h2 (lt_asymm h1)
  · rw [e2] at h1
    exact absurd h1 (lt_irrefl _)
  · rw [e1] at h2
    exact absurd h2 (lt_irrefl _)
  · obtain ⟨hid, hks⟩ := prioLE_antisymm ps a b h1 h2
    exact ⟨e1, hid, hks⟩

/-- C3: the ranked leaderboard is sorted under the ranking order
(descending overall score, tie-break by metric priority then model id),
is a permutation of the input, assigns 1-based ranks by position, and
the order is a total order — mutually related entries agree on overall
score, every priority metric and model id, so the ranking of distinct
models is deterministic.  In the spec's scenario (two models at overall
0.85, priority `compliance_accuracy` 0.9 vs 0.8) model A ranks first. -/
theorem leaderboard_ranking_total_order (ps : List String) (l : List LeaderboardEntry) :
    List.Sorted (entryLE ps) (rankEntries ps l) ∧
    (rankEntries ps l).Perm l ∧
    (leaderboardOf ps l).map Prod.fst = (List.range l.length).map (fun i => i + 1) ∧
    (∀ a b, entryLE ps a b → entryLE ps b a →
      a.overallScore = b.overallScore ∧ a.modelId = b.modelId ∧
        ∀ k ∈ ps, scoreFor a.scores k = scoreFor b.scores k) ∧
    rankEntries ["compliance_accuracy"] [modelB85, modelA85] = [modelA85, modelB85] ∧
    (leaderboardOf ["compliance_accuracy"] [modelB85, modelA85]).map
        (fun p => (p.1, p.2.modelId)) = [(1, "model-a"), (2, "model-b")] := by
  have hperm : (rankEntries ps l).Perm l := List.perm_insertionSort (entryLE ps) l
  refine ⟨?_, hperm, ?_, entryLE_antisymm ps, ?_, ?_⟩
  · haveI : IsTotal LeaderboardEntry (entryLE ps) := ⟨entryLE_total ps⟩
    haveI : IsTrans LeaderboardEntry (entryLE ps) := ⟨entryLE_trans ps⟩
    exact List.sorted_insertionSort (entryLE ps) l
  · have hlen : (rankEntries ps l).length = l.length := hperm.length_eq
    rw [leaderboardOf, List.map_map]
    have hcomp : (Prod.fst ∘ fun p : ℕ × LeaderboardEntry => (p.1 + 1, p.2)) =
        (fun i => i + 1) ∘ Prod.fst := rfl
    rw [hcomp, ← List.map_map, List.enum_map_fst, hlen]
  · norm_num +decide [rankEntries, List.insertionSort, List.orderedInsert, entryLE, prioLE,
      scoreFor, modelA85, modelB85]
  · norm_num +decide [leaderboardOf, rankEntries, List.insertionSort, List.orderedInsert,
      entryLE, prioLE, scoreFor, modelA85, modelB85, List.enum]

/-- Witness for C3's tie-break clause: an entry related to itself both
ways agrees with itself on all tie-break fields. -/
theorem leaderboard_ranking_total_order_witness :
    modelA85.overallScore = modelA85.overallScore ∧
    modelA85.modelId = modelA85.modelId ∧
    ∀ k ∈ ["compliance_accuracy"], scoreFor modelA85.scores k = scoreFor modelA85.scores k :=
  (leaderboard_ranking_total_order ["compliance_accuracy"] [modelB85, modelA85]).2.2.2.1
    modelA85 modelA85
    (Or.inr ⟨rfl, Or.inr ⟨rfl, le_refl _⟩⟩)
    (Or.inr ⟨rfl, Or.inr ⟨rfl, le_refl _⟩⟩)

/-- C6: for every literal (such as an email address or phone number)
that the configured detector flags wherever it occurs, no Example
produced by `sample(rawInteractions, policy)` contains the literal as a
substring of any input or metadata span — PII scrubbing is applied
before any persistence. -/
theorem sample_scrubs_pii (pol : SamplePolicy) (raws : List RawInteraction) (lit : String)
    (hdet : ∀ s, containsLit lit s → pol.detectPII s = true)
    (hred : ¬ containsLit lit redactionMark) :
    ∀ ex ∈ sample pol raws,
      (∀ s ∈ ex.input, ¬ containsLit lit s) ∧
      (∀ s ∈ ex.metadata, ¬ containsLit lit s) := by
  intro ex hex
  rw [sample] at hex
  obtain ⟨r, hr, rfl⟩ := List.mem_map.mp hex
  have hr2 := (List.mem_filter.mp hr).1
  obtain ⟨r0, hr0, rfl⟩ := List.mem_map.mp hr2
  constructor
  · intro s hs
    simp only [exampleOf, scrubInteraction, List.mem_map] at hs
    obtain ⟨s0, hs0, rfl⟩ := hs
    intro hcon
    by_cases hd : pol.detectPII s0 = true
    · rw [scrubSpan, if_pos hd] at hcon
      exact hred hcon
    · rw [scrubSpan, if_neg hd] at hcon
      exact hd (hdet s0 hcon)
  · intro s hs
    simp only [exampleOf, scrubInteraction, List.mem_map] at hs
    obtain ⟨s0, hs0, rfl⟩ := hs
    intro hcon
    by_cases hd : pol.detectPII s0 = true
    · rw [scrubSpan, if_pos hd] at hcon
      exact hred hcon
    · rw [scrubSpan, if_neg hd] at hcon
      exact hd (hdet s0 hcon)

/-- Witness for C6: sampling the synthetic interaction containing
`bob@x.com` yields an Example whose spans are all redacted. -/
theorem sample_scrubs_pii_witness :
    ¬ containsLit "bob@x.com" "[REDACTED]" ∧
    sample demoPolicy [demoRaw] =
      [⟨"i1", ["[REDACTED]"], none, ["[REDACTED]"]⟩] :=
  ⟨(sample_scrubs_pii demoPolicy [demoRaw] "bob@x.com"
      (fun s h => decide_eq_true h) (by decide)
      ⟨"i1", ["[REDACTED]"], none, ["[REDACTED]"]⟩ (by decide)).1
      "[REDACTED]" (by decide),
    by decide⟩

end AwardBench
